import Mathlib

/-!
Verification of the heimdall-errors macro library (src/src/lib.rs) and its
three example programs (src/examples/enum_error_v1.rs, struct_error_v1.rs,
struct_error_v2.rs).

The library exports five declarative macros, each of which expands to a
`From<T>` implementation for an application error type.  We shallowly embed
each macro's expansion as a Lean function parameterized by the data the macro
invocation supplies: the kind tag (or tag constructor / enum variant
constructor) and the lower-level type's rendering function (`to_string`).
The concrete example error types and the two failing std operations the
examples exercise (reading a missing file, reading an unset environment
variable) are embedded as concrete Lean types and functions.
-/

/-! ## Generic shapes of the generated code -/

/-- The struct shape targeted by `implement_error!` and
`implement_error_with_kind!`: a `kind` field and a `message` field
(lib.rs doc examples, lines 31-35 and 114-118). -/
structure KindMessageError (K : Type) where
  kind : K
  message : String
  deriving DecidableEq

/-- The struct shape targeted by `implement_in_error_in_struct!`: `kind`,
`message`, and `source : Option<Box<dyn Error>>` (lib.rs lines 287-291).
`C` stands for the boxed, type-erased cause. -/
structure KindMessageSourceError (K C : Type) where
  kind : K
  message : String
  source : Option C
  deriving DecidableEq

/-- Expansion of `implement_error!($err, $t, $kind)` (lib.rs lines 72-84):
`from(error) = Self { kind: $kind, message: error.to_string() }`.
`to_string` is the `ToString` rendering of the lower-level type `T`. -/
def implement_error {T K : Type} (kind : K) (to_string : T → String)
    (error : T) : KindMessageError K :=
  { kind := kind, message := to_string error }

/-- Expansion of `implement_error_with_kind!($err, $t, $kind)` (lib.rs lines
154-166): `from(error) = Self { kind: $kind(error.kind().clone()),
message: error.to_string() }`.  `kindOf` is the lower-level type's `kind()`
method; the `.clone()` of the returned sub-kind is value identity. -/
def implement_error_with_kind {T K S : Type} (kind : S → K) (kindOf : T → S)
    (to_string : T → String) (error : T) : KindMessageError K :=
  { kind := kind (kindOf error), message := to_string error }

/-- Expansion of `implement_error_in_enum!($type_, $err_type, $enum_variant)`
(lib.rs lines 210-219): `from(error) = $enum_variant(error)`. -/
def implement_error_in_enum {T E : Type} (enum_variant : T → E) (error : T) :
    E :=
  enum_variant error

/-- Expansion of `implement_string_error_in_enum!($type_, $err_type,
$enum_variant)` (lib.rs lines 263-272):
`from(error) = $enum_variant(error.to_string())`. -/
def implement_string_error_in_enum {T E : Type} (enum_variant : String → E)
    (to_string : T → String) (error : T) : E :=
  enum_variant (to_string error)

/-- Expansion of `implement_in_error_in_struct!($struct_error, $err_type,
$kind)` (lib.rs lines 297-310): `from(err) = Self { kind: $kind,
message: err.to_string(), source: Some(Box::new(err)) }`.
`box` is the coercion `Box::new` into the type-erased cause type `C`. -/
def implement_in_error_in_struct {T K C : Type} (kind : K)
    (to_string : T → String) (box : T → C) (err : T) :
    KindMessageSourceError K C :=
  { kind := kind, message := to_string err, source := some (box err) }

/-! ## Models of the std failure types the examples convert from -/

/-- The sub-categories of `std::io::ErrorKind` the examples touch. -/
inductive IoErrorKind : Type
  | NotFound
  | PermissionDenied
  | OtherKind
  deriving DecidableEq

/-- Model of `std::io::Error`: a value carries its `kind()` sub-category and
its `Display` rendering (`to_string`), which the OS fixes at creation. -/
structure IoError where
  kind : IoErrorKind
  rendered : String
  deriving DecidableEq

/-- `std::io::Error`'s `ToString`: the stored rendering. -/
def IoError.to_string (e : IoError) : String := e.rendered

/-- Model of `std::env::VarError` (the `OsString` payload of `NotUnicode`
is modelled as a `String`).  In std it derives `Clone` and `PartialEq`. -/
inductive VarError : Type
  | NotPresent
  | NotUnicode (s : String)
  deriving DecidableEq

/-- `std::env::VarError`'s `Display` rendering. -/
def VarError.to_string : VarError → String
  | .NotPresent => "environment variable not found"
  | .NotUnicode s => "environment variable was not valid unicode: " ++ s

/-- `std::env::VarError`'s derived `Clone`: a field-by-field copy. -/
def VarError.clone : VarError → VarError
  | .NotPresent => .NotPresent
  | .NotUnicode s => .NotUnicode s

/-! ## examples/enum_error_v1.rs -/

/-- `EnumError` (enum_error_v1.rs lines 7-12); derives `PartialEq`, so
equality is structural on the active variant's payload.  The Rust variant
`IO` is spelled `Io` here. -/
inductive EnumError : Type
  | Io (s : String)
  | Var (v : VarError)
  | Other
  deriving DecidableEq

/-- `Display for EnumError` (enum_error_v1.rs lines 14-22). -/
def EnumError.display : EnumError → String
  | .Other => "Unknown error"
  | .Io err => err
  | .Var err => err.to_string

/-- `implement_string_error_in_enum!(EnumError, io::Error, EnumError::IO)`
(enum_error_v1.rs line 24). -/
def EnumError.from_io (error : IoError) : EnumError :=
  implement_string_error_in_enum EnumError.Io IoError.to_string error

/-- `implement_error_in_enum!(EnumError, VarError, EnumError::Var)`
(enum_error_v1.rs line 25). -/
def EnumError.from_var (error : VarError) : EnumError :=
  implement_error_in_enum EnumError.Var error

/-! ## examples/struct_error_v1.rs -/

/-- `ErrorKind` of struct_error_v1.rs (lines 7-11); `IO` spelled `Io`. -/
inductive ErrorKindV1 : Type
  | Io
  | Var
  deriving DecidableEq

/-- The type-erased `Box<dyn Error>` cause stored by struct_error_v1's
`StructError`: in that example the only boxed values are `io::Error`s and
`VarError`s, so the erased type is their sum.  Its `to_string` delegates to
the boxed value's rendering, as `Box<dyn Error>`'s `Display` does. -/
inductive BoxedError : Type
  | io (e : IoError)
  | var (e : VarError)
  deriving DecidableEq

/-- `Display` of the boxed cause: delegates to the wrapped error. -/
def BoxedError.to_string : BoxedError → String
  | .io e => e.to_string
  | .var e => e.to_string

/-- `StructError` of struct_error_v1.rs (lines 13-18): kind, message and an
optional boxed cause. -/
abbrev StructErrorV1 : Type := KindMessageSourceError ErrorKindV1 BoxedError

/-- `implement_in_error_in_struct!(StructError, io::Error, ErrorKind::IO)`
(struct_error_v1.rs line 46). -/
def structErrorV1FromIo (err : IoError) : StructErrorV1 :=
  implement_in_error_in_struct ErrorKindV1.Io IoError.to_string BoxedError.io
    err

/-- `implement_in_error_in_struct!(StructError, VarError, ErrorKind::Var)`
(struct_error_v1.rs line 47). -/
def structErrorV1FromVar (err : VarError) : StructErrorV1 :=
  implement_in_error_in_struct ErrorKindV1.Var VarError.to_string
    BoxedError.var err

/-- `Display for StructError` (struct_error_v1.rs lines 38-42): prints only
the message field. -/
def structErrorV1Display (e : StructErrorV1) : String := e.message

/-! ## examples/struct_error_v2.rs -/

/-- `ErrorKind` of struct_error_v2.rs (lines 7-11): the `IO` variant carries
the `io::ErrorKind` sub-category; `IO` spelled `Io`. -/
inductive ErrorKindV2 : Type
  | Io (k : IoErrorKind)
  | Var
  deriving DecidableEq

/-- `StructError` of struct_error_v2.rs (lines 13-17): kind and message
only, no cause slot. -/
abbrev StructErrorV2 : Type := KindMessageError ErrorKindV2

/-- `implement_error_with_kind!(StructError, io::Error, ErrorKind::IO)`
(struct_error_v2.rs line 41). -/
def structErrorV2FromIo (error : IoError) : StructErrorV2 :=
  implement_error_with_kind ErrorKindV2.Io IoError.kind IoError.to_string
    error

/-- `implement_error!(StructError, VarError, ErrorKind::Var)`
(struct_error_v2.rs line 42). -/
def structErrorV2FromVar (error : VarError) : StructErrorV2 :=
  implement_error ErrorKindV2.Var VarError.to_string error

/-- `Display for StructError` (struct_error_v2.rs lines 33-37): prints only
the message field. -/
def structErrorV2Display (e : StructErrorV2) : String := e.message

/-! ## The failing std operations exercised by the examples' main functions -/

/-- The filesystem as the examples observe it: path to contents, `none` when
the file does not exist. -/
abbrev FileSystem : Type := String → Option String

/-- Model of `fs::read_to_string`: on a missing file it fails with the
`NotFound` `io::Error` whose Linux rendering is
"No such file or directory (os error 2)", the rendering enum_error_v1.rs
line 48 asserts. -/
def read_to_string (fs : FileSystem) (path : String) : Except IoError
    String :=
  match fs path with
  | some content => Except.ok content
  | none =>
      Except.error
        { kind := IoErrorKind.NotFound,
          rendered := "No such file or directory (os error 2)" }

/-- The process environment: variable name to value, `none` when unset. -/
abbrev EnvMap : Type := String → Option String

/-- Model of `std::env::var`: fails with `VarError::NotPresent` when the
variable is unset.  (The `NotUnicode` failure cannot arise here because the
modelled environment already holds `String`s.) -/
def env_var (env : EnvMap) (name : String) : Except VarError String :=
  match env name with
  | some v => Except.ok v
  | none => Except.error VarError.NotPresent

/-- The path the examples read: `temp_dir()` joined with "inexist.file.ñ". -/
def inexistPath (tmpDir : String) : String := tmpDir ++ "/inexist.file.ñ"

/-- `foo` of enum_error_v1.rs (lines 30-37): reads the missing file; the `?`
operator converts the `io::Error` through the generated `From`. -/
def fooEnum (fs : FileSystem) (tmpDir : String) : Except EnumError Unit :=
  match read_to_string fs (inexistPath tmpDir) with
  | Except.ok _ => Except.ok ()
  | Except.error e => Except.error (EnumError.from_io e)

/-- `bar` of enum_error_v1.rs (lines 39-44). -/
def barEnum (env : EnvMap) : Except EnumError Unit :=
  match env_var env "INEXIST_ENV_VAR" with
  | Except.ok _ => Except.ok ()
  | Except.error e => Except.error (EnumError.from_var e)

/-- `foo` of struct_error_v1.rs (lines 50-57). -/
def fooStructV1 (fs : FileSystem) (tmpDir : String) : Except StructErrorV1
    Unit :=
  match read_to_string fs (inexistPath tmpDir) with
  | Except.ok _ => Except.ok ()
  | Except.error e => Except.error (structErrorV1FromIo e)

/-- `bar` of struct_error_v1.rs (lines 59-64). -/
def barStructV1 (env : EnvMap) : Except StructErrorV1 Unit :=
  match env_var env "INEXIST_ENV_VAR" with
  | Except.ok _ => Except.ok ()
  | Except.error e => Except.error (structErrorV1FromVar e)

/-- `foo` of struct_error_v2.rs (lines 45-52). -/
def fooStructV2 (fs : FileSystem) (tmpDir : String) : Except StructErrorV2
    Unit :=
  match read_to_string fs (inexistPath tmpDir) with
  | Except.ok _ => Except.ok ()
  | Except.error e => Except.error (structErrorV2FromIo e)

/-- `bar` of struct_error_v2.rs (lines 54-59). -/
def barStructV2 (env : EnvMap) : Except StructErrorV2 Unit :=
  match env_var env "INEXIST_ENV_VAR" with
  | Except.ok _ => Except.ok ()
  | Except.error e => Except.error (structErrorV2FromVar e)

/-- A lower-level failure type whose `Display` rendering is the empty
string.  The macros place no constraint on the rendering of the converted
type beyond `ToString`, so such a type is in their domain. -/
def emptyRendering : Unit → String := fun _ => ""

/-! ## Claims -/

/-- C1: every conversion generated by `implement_error`,
`implement_error_with_kind` or `implement_in_error_in_struct` produces an
error whose `kind` field is the tag statically supplied to the macro; for
`implement_error_with_kind` the tag constructor is applied to the input's
own `kind()` sub-category. -/
theorem kind_equals_declared_tag {T K S C : Type} (kindTag : K)
    (kindCtor : S → K) (kindOf : T → S) (to_string : T → String)
    (box : T → C) (error : T) :
    (implement_error kindTag to_string error).kind = kindTag ∧
    (implement_error_with_kind kindCtor kindOf to_string error).kind
      = kindCtor (kindOf error) ∧
    (implement_in_error_in_struct kindTag to_string box error).kind
      = kindTag :=
  ⟨rfl, rfl, rfl⟩

/-- C2: for `implement_error`, `implement_string_error_in_enum` (at its
instantiation in enum_error_v1.rs) and `implement_in_error_in_struct`, the
stored message is the input's `to_string` rendering taken at conversion
time, and converting two equal failures yields equal messages. -/
theorem message_captured_at_conversion {T K C : Type} (kindTag : K)
    (to_string : T → String) (box : T → C) (e e1 e2 : T) (ioe : IoError)
    (h : e1 = e2) :
    (implement_error kindTag to_string e).message = to_string e ∧
    (implement_in_error_in_struct kindTag to_string box e).message
      = to_string e ∧
    EnumError.from_io ioe = EnumError.Io ioe.to_string ∧
    (implement_error kindTag to_string e1).message
      = (implement_error kindTag to_string e2).message ∧
    (implement_in_error_in_struct kindTag to_string box e1).message
      = (implement_in_error_in_struct kindTag to_string box e2).message := by
  subst h
  exact ⟨rfl, rfl, rfl, rfl, rfl⟩

/-- C2 witness: the conversion of `VarError::NotPresent` by
`implement_error` captures exactly its rendering. -/
theorem message_captured_at_conversion_witness :
    (implement_error ErrorKindV1.Io VarError.to_string
      VarError.NotPresent).message = "environment variable not found" :=
  ((message_captured_at_conversion ErrorKindV1.Io VarError.to_string
    BoxedError.var VarError.NotPresent VarError.NotPresent
    VarError.NotPresent (IoError.mk IoErrorKind.NotFound "m") rfl).1).trans
    rfl

/-- C3: the causality-preserving conversions keep the original failure:
`implement_in_error_in_struct` stores `some` of the boxed input in
`source`, the rendering of that stored cause equals the error's own
message (shown at both instantiations in struct_error_v1.rs), and
`implement_error_in_enum` stores the raw input as the variant payload. -/
theorem cause_preserved {T K C : Type} (kindTag : K)
    (to_string : T → String) (box : T → C) (err : T) (ioe : IoError)
    (v : VarError) :
    (implement_in_error_in_struct kindTag to_string box err).source
      = some (box err) ∧
    (structErrorV1FromIo ioe).source = some (BoxedError.io ioe) ∧
    (structErrorV1FromIo ioe).source.map BoxedError.to_string
      = some (structErrorV1FromIo ioe).message ∧
    (structErrorV1FromVar v).source = some (BoxedError.var v) ∧
    (structErrorV1FromVar v).source.map BoxedError.to_string
      = some (structErrorV1FromVar v).message ∧
    EnumError.from_var v = EnumError.Var v :=
  ⟨rfl, rfl, rfl, rfl, rfl, rfl⟩

/-- C4: the causality-discarding conversions retain nothing of the input
beyond the kind data and the rendered message: the result type holds only
those fields, and two inputs with equal rendering (and, for the kind-refined
macro, equal sub-kind) convert to fully equal normalized errors, so the
original value is not recoverable from the result. -/
theorem discarded_cause_not_retrievable {T K S : Type} (kindTag : K)
    (kindCtor : S → K) (kindOf : T → S) (to_string : T → String)
    (e1 e2 : T) (f1 f2 : IoError) (r : KindMessageError K)
    (hmsg : to_string e1 = to_string e2) (hkind : kindOf e1 = kindOf e2)
    (hio : f1.to_string = f2.to_string) :
    r = { kind := r.kind, message := r.message } ∧
    implement_error kindTag to_string e1
      = implement_error kindTag to_string e2 ∧
    implement_error_with_kind kindCtor kindOf to_string e1
      = implement_error_with_kind kindCtor kindOf to_string e2 ∧
    EnumError.from_io f1 = EnumError.from_io f2 := by
  refine ⟨rfl, ?_, ?_, ?_⟩
  · simp [implement_error, hmsg]
  · simp [implement_error_with_kind, hmsg, hkind]
  · simp [EnumError.from_io, implement_string_error_in_enum, hio]

/-- C4 witness: two distinct `io::Error`s with equal renderings become
indistinguishable normalized errors under the discarding conversions. -/
theorem discarded_cause_not_retrievable_witness :
    implement_error ErrorKindV1.Io IoError.to_string
        (IoError.mk IoErrorKind.NotFound "m")
      = implement_error ErrorKindV1.Io IoError.to_string
        (IoError.mk IoErrorKind.OtherKind "m") :=
  (discarded_cause_not_retrievable ErrorKindV1.Io
    (fun _ : Unit => ErrorKindV1.Io) (fun _ => ())
    IoError.to_string (IoError.mk IoErrorKind.NotFound "m")
    (IoError.mk IoErrorKind.OtherKind "m")
    (IoError.mk IoErrorKind.NotFound "m")
    (IoError.mk IoErrorKind.OtherKind "m")
    (KindMessageError.mk ErrorKindV1.Io "m") rfl rfl rfl).2.1

/-- C5: every generated conversion is a total pure function of its input:
for each of the five macros, the conversion applied to any input value of
the declared lower-level type equals a plain constructor application built
from the statically supplied data and the input — it cannot fail and does
nothing beyond constructing that value. -/
theorem conversion_total_and_pure {T K S C E : Type} (kindTag : K)
    (kindCtor : S → K) (kindOf : T → S) (to_string : T → String)
    (box : T → C) (enum_variant : T → E) (string_variant : String → E)
    (e : T) :
    implement_error kindTag to_string e
      = KindMessageError.mk kindTag (to_string e) ∧
    implement_error_with_kind kindCtor kindOf to_string e
      = KindMessageError.mk (kindCtor (kindOf e)) (to_string e) ∧
    implement_error_in_enum enum_variant e = enum_variant e ∧
    implement_string_error_in_enum string_variant to_string e
      = string_variant (to_string e) ∧
    implement_in_error_in_struct kindTag to_string box e
      = KindMessageSourceError.mk kindTag (to_string e) (some (box e)) :=
  ⟨rfl, rfl, rfl, rfl, rfl⟩

/-- C8: converting a failure and converting its clone (here `VarError`, the
only cloneable lower-level type the examples convert) produce structurally
equal normalized errors in the union-variant and both struct-variant
types. -/
theorem clone_converts_equal (v : VarError) :
    EnumError.from_var v.clone = EnumError.from_var v ∧
    structErrorV1FromVar v.clone = structErrorV1FromVar v ∧
    structErrorV2FromVar v.clone = structErrorV2FromVar v := by
  cases v <;> exact ⟨rfl, rfl, rfl⟩

/-- C10: `Display` is transparent through normalization in all three
example types: the rendered text of the normalized error equals the
rendered text of the original failure. -/
theorem display_transparent (e : IoError) (v : VarError) :
    structErrorV1Display (structErrorV1FromIo e) = e.to_string ∧
    structErrorV1Display (structErrorV1FromVar v) = v.to_string ∧
    structErrorV2Display (structErrorV2FromIo e) = e.to_string ∧
    structErrorV2Display (structErrorV2FromVar v) = v.to_string ∧
    EnumError.display (EnumError.from_io e) = e.to_string ∧
    EnumError.display (EnumError.from_var v) = v.to_string :=
  ⟨rfl, rfl, rfl, rfl, rfl, rfl⟩

/-- C6: when the file at `temp_dir()/inexist.file.ñ` does not exist, `foo`
in each example returns the normalized error the example's `main` asserts:
in the enum example exactly `EnumError::IO("No such file or directory
(os error 2)")`; in the kind-refined struct example the kind is
`ErrorKind::IO(NotFound)`; in the boxed-source struct example the kind is
`ErrorKind::IO`; and in each struct example the message starts with
"No such file or directory". -/
theorem missing_file_scenario (fs : FileSystem) (tmpDir : String)
    (h : fs (inexistPath tmpDir) = none) :
    fooEnum fs tmpDir
      = Except.error
          (EnumError.Io "No such file or directory (os error 2)") ∧
    (∃ e : StructErrorV2, fooStructV2 fs tmpDir = Except.error e ∧
      e.kind = ErrorKindV2.Io IoErrorKind.NotFound ∧
      ∃ rest, e.message = "No such file or directory" ++ rest) ∧
    (∃ e : StructErrorV1, fooStructV1 fs tmpDir = Except.error e ∧
      e.kind = ErrorKindV1.Io ∧
      ∃ rest, e.message = "No such file or directory" ++ rest) := by
  have hread : read_to_string fs (inexistPath tmpDir)
      = Except.error
          (IoError.mk IoErrorKind.NotFound
            "No such file or directory (os error 2)") := by
    unfold read_to_string
    rw [h]
  refine ⟨?_, ?_, ?_⟩
  · unfold fooEnum
    rw [hread]
    rfl
  · refine ⟨_, by unfold fooStructV2; rw [hread], rfl, " (os error 2)",
      by decide⟩
  · refine ⟨_, by unfold fooStructV1; rw [hread], rfl, " (os error 2)",
      by decide⟩

/-- C6 witness: the scenario evaluated on a filesystem with no files. -/
theorem missing_file_scenario_witness :
    fooEnum (fun _ => none) "/tmp"
      = Except.error
          (EnumError.Io "No such file or directory (os error 2)") :=
  (missing_file_scenario (fun _ => none) "/tmp" rfl).1

/-- C7: when the environment variable "INEXIST_ENV_VAR" is unset, `bar` in
each example returns the normalized error the example's `main` asserts: in
the enum example exactly `EnumError::Var(VarError::NotPresent)` (the raw
`VarError` payload), and in both struct examples an error whose kind is the
environment-variable category. -/
theorem unset_env_scenario (env : EnvMap)
    (h : env "INEXIST_ENV_VAR" = none) :
    barEnum env = Except.error (EnumError.Var VarError.NotPresent) ∧
    (∃ e : StructErrorV1, barStructV1 env = Except.error e ∧
      e.kind = ErrorKindV1.Var) ∧
    (∃ e : StructErrorV2, barStructV2 env = Except.error e ∧
      e.kind = ErrorKindV2.Var) := by
  have hvar : env_var env "INEXIST_ENV_VAR"
      = Except.error VarError.NotPresent := by
    unfold env_var
    rw [h]
  refine ⟨?_, ?_, ?_⟩
  · unfold barEnum
    rw [hvar]
    rfl
  · exact ⟨_, by unfold barStructV1; rw [hvar], rfl⟩
  · exact ⟨_, by unfold barStructV2; rw [hvar], rfl⟩

/-- C7 witness: the scenario evaluated on an empty environment. -/
theorem unset_env_scenario_witness :
    barEnum (fun _ => none)
      = Except.error (EnumError.Var VarError.NotPresent) :=
  (unset_env_scenario (fun _ => none) rfl).1

/-- C9 counterexample: the conversions copy the input's rendering verbatim
into `message`, so a lower-level failure whose own rendering is empty (a
type the macros accept, since they require only `ToString`) produces a
normalized error whose message is the empty string — contradicting the
claim that the message is non-empty for every input, "including failures
whose own textual rendering is empty". -/
theorem empty_rendering_gives_empty_message :
    (implement_error ErrorKindV1.Io emptyRendering ()).message = "" ∧
    (implement_in_error_in_struct ErrorKindV1.Io emptyRendering
      (fun _ => BoxedError.var VarError.NotPresent) ()).message = "" :=
  ⟨rfl, rfl⟩

/-- C9 (amended): the message stored by `implement_error` and
`implement_in_error_in_struct` equals the input's rendering, hence it is
non-empty exactly when the input failure's own textual rendering is
non-empty. -/
theorem message_nonempty_iff_rendering_nonempty {T K C : Type}
    (kindTag : K) (to_string : T → String) (box : T → C) (e : T)
    (h : to_string e ≠ "") :
    (implement_error kindTag to_string e).message ≠ "" ∧
    (implement_in_error_in_struct kindTag to_string box e).message ≠ "" :=
  ⟨h, h⟩

/-- C9 witness: converting `VarError::NotPresent`, whose rendering is
non-empty, yields a non-empty message. -/
theorem message_nonempty_witness :
    (implement_error ErrorKindV1.Var VarError.to_string
      VarError.NotPresent).message ≠ "" :=
  (message_nonempty_iff_rendering_nonempty ErrorKindV1.Var
    VarError.to_string BoxedError.var VarError.NotPresent
    (by decide)).1
